import Mathlib

/-!
Verification development for a group-chat assistant service.

The development shallowly embeds the orchestration core of the service:
the cancellation registry (`RequestManager` in `loopmessage.ts`), the
prompt building and bounded tool-calling loop of `generateChatResponse`
(`openai.ts`), the tool registry (`tools.ts`), and the per-message
pipeline `processMessageAsync` (webhook route).  External collaborators
(the completion service, the message store, the delivery channel, the
downstream tool APIs) are modelled as explicit oracles passed in as
arguments, so every embedded function is a pure, executable Lean
definition.
-/

set_option maxRecDepth 2000

namespace Texts

/-! ## JavaScript-style helpers

JavaScript truthiness for the places the source relies on it:
`msg.text` filters out both `null` and the empty string;
`msg.recipient || "Unknown"` treats the empty string as absent;
`args.limit || 20` treats `0` as absent.
-/

/-- Truthiness of a nullable string, as used by `filter((msg) => msg.text)`
and by `if (!response)` in `openai.ts`. -/
def truthyStr : Option String → Bool
  | none => false
  | some s => !(s == "")

/-- Model of `x || default` on a nullable string (empty string is falsy). -/
def orDefaultStr (x : Option String) (d : String) : String :=
  match x with
  | none => d
  | some s => if s == "" then d else s

/-- Model of `args.limit || 20` on a nullable number (`0` is falsy). -/
def orDefaultNat (x : Option Nat) (d : Nat) : Nat :=
  match x with
  | none => d
  | some n => if n == 0 then d else n

/-! ## Cancellation registry (`RequestManager`, `loopmessage.ts`)

The registry is a `Map<string, AbortController>`.  We model an
`AbortController` by a numeric identity and model the map extensionally
as an association list with unique keys: `set` prepends after erasing
the key, `delete` erases the key, `get` is first lookup.  The set of
identities that have been signalled (`.abort()` called) is carried
alongside, and fresh identities come from a counter. -/

/-- Lookup in the key-to-controller map (`Map.get`). -/
def lookupKey (k : String) : List (String × Nat) → Option Nat
  | [] => none
  | (k₂, v) :: rest => if k₂ == k then some v else lookupKey k rest

/-- Removal from the key-to-controller map (`Map.delete`). -/
def eraseKey (k : String) (l : List (String × Nat)) : List (String × Nat) :=
  l.filter (fun p => !(p.1 == k))

/-- Update of the key-to-controller map (`Map.set`). -/
def setKey (k : String) (v : Nat) (l : List (String × Nat)) : List (String × Nat) :=
  (k, v) :: eraseKey k l

/-- State of the `RequestManager`: the `abortControllers` map from group
id to controller identity, the set of identities already signalled
cancelled, and the counter supplying fresh identities. -/
structure RMState where
  controllers : List (String × Nat) := []
  aborted : List Nat := []
  nextId : Nat := 0
deriving DecidableEq, Repr

/-- Well-formedness: every identity the state mentions was allocated
below the fresh counter, so the next allocation is genuinely new. -/
def RMState.wf (s : RMState) : Bool :=
  s.controllers.all (fun p => p.2 < s.nextId) && s.aborted.all (fun i => i < s.nextId)

/-- Embedding of `RequestManager.cancelAndCreate(groupId)`: signal the
existing controller for the group when present, then register and
return a fresh controller. -/
def cancelAndCreate (groupId : String) (s : RMState) : Nat × RMState :=
  let s₁ :=
    match lookupKey groupId s.controllers with
    | some i => { s with aborted := i :: s.aborted }
    | none => s
  let t := s₁.nextId
  (t, { s₁ with controllers := setKey groupId t s₁.controllers, nextId := t + 1 })

/-- Embedding of `RequestManager.remove(groupId)`: unconditionally
delete the map entry for the group. -/
def remove (groupId : String) (s : RMState) : RMState :=
  { s with controllers := eraseKey groupId s.controllers }

/-- Embedding of `RequestManager.get(groupId)`. -/
def current (groupId : String) (s : RMState) : Option Nat :=
  lookupKey groupId s.controllers

/-- Whether a controller identity has been signalled cancelled. -/
def RMState.isAborted (s : RMState) (i : Nat) : Bool :=
  s.aborted.contains i

/-! ## Recent-message window and prompt building (`openai.ts`, lines 35-85)

The `Message` record mirrors the interface consumed by
`generateChatResponse`: nullable text, sender metadata, the assistant
flag, the optional participants list and the optional `recipient` field
(which, despite its name, carries the phone number of the sender). -/

/-- One persisted message as consumed by `generateChatResponse`. -/
structure Message where
  text : Option String
  sender_name : String
  created_at : String
  message_type : String
  is_assistant : Bool
  participants : Option (List String)
  recipient : Option String
deriving DecidableEq, Repr

/-- Embedding of the window preparation: reverse the newest-first window
into chronological order, then keep only messages with truthy text
(`[...messages].reverse().filter((msg) => msg.text)`). -/
def chronologicalMessages (messages : List Message) : List Message :=
  messages.reverse.filter (fun msg => truthyStr msg.text)

/-- The phone number rendered as the assistant in participant lists. -/
def assistantNumber : String := "+16463258470"

/-- Participant substitution from the user-message formatter. -/
def renderParticipant (p : String) : String :=
  if p = assistantNumber then "Assistant" else p

/-- Rendering of the participant list: a missing `participants` array in
JavaScript makes the optional chain yield `undefined`, which the template
literal prints as the string `undefined`. -/
def participantsLabel (msg : Message) : String :=
  match msg.participants with
  | some ps => String.intercalate ", " (ps.map renderParticipant)
  | none => "undefined"

/-- Embedding of the per-message formatter from the conversation-context
builder: assistant turns become a labeled utterance, user turns carry
sender and participant labeling. -/
def renderMessage (msg : Message) : String :=
  if msg.is_assistant then
    "Assistant: " ++ msg.text.getD ""
  else
    orDefaultStr msg.recipient "Unknown" ++ " to " ++ participantsLabel msg ++
      ": " ++ msg.text.getD ""

/-- The serialized group-chat context (`conversationContext`). -/
def conversationContext (messages : List Message) : String :=
  String.intercalate "\n" ((chronologicalMessages messages).map renderMessage)

/-- Content of the single synthesized user turn. -/
def userContext (messages : List Message) : String :=
  "Here is the recent conversation from the group chat:\n\n" ++ conversationContext messages

/-- The system instructions, verbatim from `openai.ts`. -/
def systemPromptText : String :=
  "You are a helpful assistant named third wheel participating in a group chat. Be friendly, concise, and engaging. Keep responses brief and natural. You can see who sent each message by their phone number. Respond casually in lowercase or in all UPPERCASE if you are excited. Speak in phrases with little punctuation, do not use long paragraphs. Do not respond as anyone else other than the third party assistant. Do not use emojis, but you can use plaintext smilies.\n\nTOOLS: \n- send_message: When you want to reply to the group chat, you MUST use this tool. Do not just provide text responses - always use the tool. You can ONLY put plain text in the send_message tool, NO MARKDOWN. You can send_message 1-3 times in a row, but each should be less than 10 words unless you are sending information from a tool call.\n- get_user_histories: Use ONLY WHEN their group message content is related to the group chat members\x27 music and ubereats/doordash order preferences. You can call it multiple times for different group chat members. If someone asks about the preferences of a person with a specific name, you can call this tool for everyone in the group chat to find the correct person (the response will have the first_name). If first_name is \"you\", that is Emily. \n- send_audio_message: Use this when you want to send an audio message to the group chat. You can use this after get_user_histories was called for music preferences. If there is text content related to the audio message, call send_message.\n\nIMPORTANT: Mimic the style of the messages in the group chat as closely as possible. Do not send repetitive messages. Be useful, and don\x27t interject messages in the group chat when not necessary. This is PRIMARILY A GROUP CHAT BETWEEN THE OTHER PEOPLE. When referred to as third wheel, make sure to respond."

/-! ## Conversation turns and tool invocations -/

/-- A tool invocation as delivered by the completion service: either the
supported function-call shape (call identifier, tool name and the raw
argument payload, whose JSON decoding is treated as the identity at this
level of abstraction) or some other shape, carrying only its type tag. -/
inductive ToolCall where
  | function (id : String) (name : String) (args : String)
  | other (ty : String) (id : String)
deriving DecidableEq, Repr

/-- One turn of the model-facing running conversation. -/
inductive ConvMsg where
  | system (content : String)
  | user (content : String)
  | assistant (content : Option String) (tool_calls : Option (List ToolCall))
  | tool (tool_call_id : String) (content : String)
deriving DecidableEq, Repr

/-- The initial conversation assembled before the first completion call:
exactly the system message followed by the synthesized user message. -/
def initialConversation (messages : List Message) : List ConvMsg :=
  [ConvMsg.system systemPromptText, ConvMsg.user (userContext messages)]

/-- One completion-service response: optional text content and the
optional tool-call array (`choices[0].message`). -/
structure Completion where
  content : Option String
  tool_calls : Option (List ToolCall)
deriving DecidableEq, Repr

/-- JavaScript truthiness of `responseMessage?.tool_calls`: any present
array (even an empty one) is truthy, an absent field is falsy. -/
def truthyCalls : Option (List ToolCall) → Bool
  | none => false
  | some _ => true

/-! ## Tool-execution phase (`openai.ts`, lines 141-200) -/

/-- Outcome of one executor invocation, as observed by the loop: a
returned result string or a thrown error with its message. -/
inductive ExecOutcome where
  | ok (value : String)
  | threw (message : String)
deriving DecidableEq, Repr

/-- The fixed cap on a tool result reinserted into the context. -/
def truncLimit : Nat := 2000

/-- The marker appended to a truncated tool result. -/
def truncationMarker : String := "\n... (truncated for context)"

/-- Embedding of the truncation step applied before a tool result is
reinserted into the model-facing conversation. -/
def truncateResult (r : String) : String :=
  if r.length > truncLimit then r.take truncLimit ++ truncationMarker else r

/-- Minimal JSON string quoting, standing in for `JSON.stringify` on the
plain strings the source serializes. -/
def jsonQuote (s : String) : String := "\"" ++ s ++ "\""

/-- The error-shaped tool result the loop substitutes when an executor
throws (`JSON.stringify(\x7b error: error.message \x7d)`). -/
def toolErrorContent (msg : String) : String :=
  "\x7b\"error\":" ++ jsonQuote msg ++ "\x7d"

/-- Content of the tool-result turn for one dispatched invocation: the
truncated result on success, the error-shaped result on a throw. -/
def toolCallContent (exec : String → String → ExecOutcome)
    (name : String) (args : String) : String :=
  match exec name args with
  | .ok r => truncateResult r
  | .threw e => toolErrorContent e

/-- Everything one batch of tool invocations produces: the tool-result
turns appended to the conversation, the warnings logged for skipped
invocations, and the raw (untruncated) outcome of each dispatch in
dispatch order — the side-effect record. -/
structure BatchOutcome where
  msgs : List ConvMsg := []
  warnings : List String := []
  raws : List (String × ExecOutcome) := []
deriving DecidableEq, Repr

/-- Embedding of the `for (const toolCall of responseMessage.tool_calls)`
loop: sequential dispatch in the order received, skipping non-function
shapes with a warning, appending one tool-result turn per dispatched
invocation and recovering a thrown executor error into an error-shaped
result. -/
def runToolCalls (exec : String → String → ExecOutcome) : List ToolCall → BatchOutcome
  | [] => {}
  | ToolCall.other ty _ :: rest =>
    let b := runToolCalls exec rest
    { msgs := b.msgs,
      warnings := ("Skipping non-function tool call: " ++ ty) :: b.warnings,
      raws := b.raws }
  | ToolCall.function id name args :: rest =>
    let outcome := exec name args
    let b := runToolCalls exec rest
    { msgs := ConvMsg.tool id (toolCallContent exec name args) :: b.msgs,
      warnings := b.warnings,
      raws := (id, outcome) :: b.raws }

/-- The function-shaped invocations of a batch, in order. -/
def functionCalls : List ToolCall → List (String × String × String)
  | [] => []
  | ToolCall.function id name args :: rest => (id, name, args) :: functionCalls rest
  | ToolCall.other _ _ :: rest => functionCalls rest

/-- The type tags of the non-function invocations of a batch, in order. -/
def nonFunctionTypes : List ToolCall → List String
  | [] => []
  | ToolCall.function _ _ _ :: rest => nonFunctionTypes rest
  | ToolCall.other ty _ :: rest => ty :: nonFunctionTypes rest

/-! ## The bounded tool-calling loop (`openai.ts`, lines 87-290) -/

/-- Failure of one completion call: an abort observed mid-call or a
service-level error. -/
inductive CallErr where
  | aborted
  | service (msg : String)
deriving DecidableEq, Repr

/-- Result of one orchestrator run.  A thrown `AbortError` is mapped to
`cancelled` by the catch clause; a missing final text is the
no-response failure; other throws surface as service errors. -/
inductive GenResult where
  | ok (text : String)
  | cancelled
  | serviceError (msg : String)
  | noResponse
deriving DecidableEq, Repr

/-- The fixed maximum number of tool-call iterations. -/
def maxToolCalls : Nat := 10

/-- Model of `String.prototype.trim()`: drop whitespace from both
ends. -/
def jsTrim (s : String) : String :=
  String.mk (((s.data.dropWhile Char.isWhitespace).reverse.dropWhile Char.isWhitespace).reverse)

/-- Embedding of the code after the loop: take the final completion text
when truthy, trimmed; otherwise throw the no-response error. -/
def finalize (msg : Completion) : GenResult :=
  match msg.content with
  | none => GenResult.noResponse
  | some t => if t == "" then GenResult.noResponse else GenResult.ok (jsTrim t)

/-- Embedding of the `while (responseMessage?.tool_calls && toolCallCount
< maxToolCalls)` loop.  `completions` is the completion-service oracle,
indexed by how many calls have been issued so far; `exec` is the
executor oracle behind `executeTool`; `msg` is the message of the most
recent completion; `conv` the running conversation.  The iteration
counter is represented by the remaining budget
`remaining = maxToolCalls - toolCallCount`, so the guard
`toolCallCount < maxToolCalls` is the match on `remaining`. -/
def genLoop (completions : Nat → Except CallErr Completion)
    (exec : String → String → ExecOutcome) :
    Nat → Completion → List ConvMsg → Nat → GenResult × List ConvMsg
  | remaining, msg, conv, callIdx =>
    if truthyCalls msg.tool_calls = true then
      match remaining with
      | 0 => (finalize msg, conv)
      | r + 1 =>
        let conv₁ := conv ++ [ConvMsg.assistant msg.content msg.tool_calls]
        let batch := runToolCalls exec (msg.tool_calls.getD [])
        let conv₂ := conv₁ ++ batch.msgs
        match completions callIdx with
        | .error CallErr.aborted => (GenResult.cancelled, conv₂)
        | .error (CallErr.service m) => (GenResult.serviceError m, conv₂)
        | .ok c => genLoop completions exec r c conv₂ (callIdx + 1)
    else
      (finalize msg, conv)

/-- Embedding of `generateChatResponse`: build the prompt, issue the
initial completion call, then drive the bounded tool loop with the full
iteration budget.  The missing API key throws up front; an abort during
any completion call surfaces as the cancelled result via the catch
clause. -/
def generateChatResponse (messages : List Message)
    (completions : Nat → Except CallErr Completion)
    (exec : String → String → ExecOutcome)
    (apiKeySet : Bool) : GenResult :=
  if !apiKeySet then GenResult.serviceError "OPENAI_API_KEY is not set"
  else
    match completions 0 with
    | .error CallErr.aborted => GenResult.cancelled
    | .error (CallErr.service m) => GenResult.serviceError m
    | .ok c => (genLoop completions exec maxToolCalls c (initialConversation messages) 1).1

/-! ## Tool registry (`tools.ts`) -/

/-- Caller-scoped context passed to executors. -/
structure ToolContext where
  groupId : String
  senderName : String
deriving DecidableEq, Repr

/-- The argument payload of one tool invocation, covering the union of
fields the three executors read. -/
structure ToolArgs where
  text : String := ""
  phone_number : String := ""
  category : String := ""
  limit : Option Nat := none
  media_url : String := ""
deriving DecidableEq, Repr

/-- One page of the internal-histories API response. -/
structure HistPage where
  itemsJson : List String
  cursorPresent : Bool
deriving DecidableEq, Repr

/-- Oracles for the external collaborators the executors call, plus the
ambient environment key. -/
structure ToolEnv where
  homieKeySet : Bool
  sendMessage : String → String → String → Except String Unit
  sendAudio : String → String → String → String → Except String Unit
  getHistories : String → String → Nat → Except String HistPage

/-- The structured error result an executor returns for any caught
failure (`JSON.stringify(\x7b success: false, error: ... \x7d)`). -/
def toolFailure (msg : String) : String :=
  "\x7b\"success\":false,\"error\":" ++ jsonQuote msg ++ "\x7d"

/-- Model of `error.message || default` in the catch clauses. -/
def errMsgOr (e d : String) : String := if e == "" then d else e

/-- Success result of the send-message executor. -/
def sendMessageSuccess : String :=
  "\x7b\"success\":true,\"message\":\"Message sent successfully\"\x7d"

/-- Success result of the send-audio executor. -/
def audioSuccess : String :=
  "\x7b\"success\":true,\"message\":\"Audio message sent successfully\"\x7d"

/-- Success result of the histories executor. -/
def historiesSuccess (page : HistPage) : String :=
  "\x7b\"success\":true,\"count\":" ++ toString page.itemsJson.length ++
    ",\"items\":[" ++ String.intercalate "," page.itemsJson ++ "],\"has_more\":" ++
    (if page.cursorPresent then "true" else "false") ++ "\x7d"

/-- Phone normalization: strip dashes and whitespace. -/
def normalizePhone (s : String) : String :=
  String.mk (s.data.filter (fun c => !(c == '-' || c.isWhitespace)))

/-- Model of `String.prototype.startsWith`. -/
def jsStartsWith (s pre : String) : Bool :=
  pre.data.isPrefixOf s.data

/-- Embedding of the `send_message` executor. -/
def sendMessageExec (env : ToolEnv) (args : ToolArgs) (ctx : ToolContext) : String :=
  match env.sendMessage ctx.groupId args.text ctx.senderName with
  | .ok _ => sendMessageSuccess
  | .error e => toolFailure (errMsgOr e "Failed to send message")

/-- Embedding of the `get_user_histories` executor: the missing API key
is thrown inside the try block and caught into a structured error. -/
def getUserHistoriesExec (env : ToolEnv) (args : ToolArgs) (_ctx : ToolContext) : String :=
  if !env.homieKeySet then
    toolFailure "HOMIE_API_KEY environment variable is not set"
  else
    match env.getHistories (normalizePhone args.phone_number) args.category
        (orDefaultNat args.limit 20) with
    | .ok page => historiesSuccess page
    | .error e => toolFailure (errMsgOr e "Failed to fetch user histories")

/-- Embedding of the `send_audio_message` executor with its argument
validation: the URL must use the secure scheme and respect the length
cap; both violations are thrown inside the try block and caught into
structured errors. -/
def sendAudioExec (env : ToolEnv) (args : ToolArgs) (ctx : ToolContext) : String :=
  if !(jsStartsWith args.media_url "https://") then
    toolFailure "media_url must start with https://"
  else if args.media_url.length > 256 then
    toolFailure "media_url must be less than 256 characters"
  else
    match env.sendAudio ctx.groupId "Audio message" args.media_url ctx.senderName with
    | .ok _ => audioSuccess
    | .error e => toolFailure (errMsgOr e "Failed to send audio message")

/-- Embedding of `executeTool`: dispatch by name over the executor
table; an unregistered name throws the unknown-tool error to the
caller. -/
def executeTool (env : ToolEnv) (toolName : String) (args : ToolArgs) (ctx : ToolContext) :
    Except String String :=
  if toolName = "send_message" then Except.ok (sendMessageExec env args ctx)
  else if toolName = "get_user_histories" then Except.ok (getUserHistoriesExec env args ctx)
  else if toolName = "send_audio_message" then Except.ok (sendAudioExec env args ctx)
  else Except.error ("Unknown tool: " ++ toolName)

/-! ## The per-message pipeline (`processMessageAsync`, webhook route)

The cancellation signal is sampled at its three check points; an abort
raised during the completion call itself reaches the pipeline as the
cancelled result of `generateChatResponse`.  The database save is
best-effort and never blocks continuation, so it does not appear in the
state. -/

/-- The size of the recent-message window fetched per run. -/
def windowLimit : Nat := 10

/-- The bounded recent window: the newest `windowLimit` messages of the
newest-first history. -/
def recentWindow (history : List Message) : List Message :=
  history.take windowLimit

/-- The field mapping the route applies to fetched rows before handing
them to the orchestrator; the participants array is not copied. -/
def routeMessage (m : Message) : Message :=
  { text := m.text, sender_name := m.sender_name, created_at := m.created_at,
    message_type := m.message_type, is_assistant := m.is_assistant,
    participants := none, recipient := m.recipient }

/-- Oracles and sampled signal states for one pipeline run. -/
structure PipelineEnv where
  groupId : String
  senderName : String
  abortedBeforeFetch : Bool
  fetch : Except String (List Message)
  abortedBeforeGenerate : Bool
  completions : Nat → Except CallErr Completion
  exec : String → String → ExecOutcome
  openaiKeySet : Bool
  abortedAfterGenerate : Bool
  deliver : String → String → String → Except String Unit

/-- Observable outcome of one pipeline run: the text passed to the
delivery channel for the final reply, if that call was made, and whether
the run released its registry entry. -/
structure PipelineOutcome where
  delivered : Option String := none
  removedController : Bool := false
deriving DecidableEq, Repr

/-- Embedding of `processMessageAsync`: check the signal before fetching,
before generating and after generating; deliver only a successful final
text; clean up the registry entry on normal completion and in the catch
clause (the early cancelled-or-empty returns do not reach either). -/
def processMessageAsync (env : PipelineEnv) : PipelineOutcome :=
  if env.abortedBeforeFetch then {}
  else
    match env.fetch with
    | .error _ => {}
    | .ok recent =>
      if recent.isEmpty then {}
      else if env.abortedBeforeGenerate then {}
      else
        match generateChatResponse (recent.map routeMessage) env.completions env.exec
            env.openaiKeySet with
        | GenResult.ok text =>
          if env.abortedAfterGenerate then {}
          else
            match env.deliver env.groupId text env.senderName with
            | .ok _ => { delivered := some text, removedController := true }
            | .error _ => { delivered := some text, removedController := true }
        | _ => { delivered := none, removedController := true }

/-!
# Theorems
-/

/-! ## Map laws for the registry model. -/

theorem lookupKey_setKey_self (k : String) (v : Nat) (l : List (String × Nat)) :
    lookupKey k (setKey k v l) = some v := by
  simp [setKey, lookupKey]

theorem lookupKey_eraseKey_self (k : String) (l : List (String × Nat)) :
    lookupKey k (eraseKey k l) = none := by
  induction l with
  | nil => rfl
  | cons p rest ih =>
    by_cases h : p.1 == k
    · simpa [eraseKey, h] using ih
    · simp only [eraseKey, List.filter] at ih ⊢
      simp [h, lookupKey, ih]

theorem eraseKey_of_lookup_none (k : String) (l : List (String × Nat))
    (h : lookupKey k l = none) : eraseKey k l = l := by
  induction l with
  | nil => rfl
  | cons p rest ih =>
    by_cases hk : p.1 == k
    · simp [lookupKey, hk] at h
    · simp only [lookupKey, hk, if_neg] at h
      simp only [eraseKey, List.filter, hk] at ih ⊢
      simp [ih h]

theorem eraseKey_eraseKey (k : String) (l : List (String × Nat)) :
    eraseKey k (eraseKey k l) = eraseKey k l := by
  apply eraseKey_of_lookup_none
  exact lookupKey_eraseKey_self k l

theorem contains_eq_false_iff (l : List Nat) (n : Nat) : l.contains n = false ↔ n ∉ l := by
  simp

theorem contains_eq_true_iff (l : List Nat) (n : Nat) : l.contains n = true ↔ n ∈ l := by
  simp

theorem mem_of_lookupKey_some {k : String} {l : List (String × Nat)} {i : Nat}
    (h : lookupKey k l = some i) : ∃ p ∈ l, p.2 = i := by
  induction l with
  | nil => simp [lookupKey] at h
  | cons p rest ih =>
    by_cases hk : p.1 == k
    · simp only [lookupKey, hk, if_pos] at h
      exact ⟨p, List.mem_cons_self p rest, Option.some_injective _ h⟩
    · simp only [lookupKey, hk, if_neg] at h
      obtain ⟨q, hq, hqi⟩ := ih h
      exact ⟨q, List.mem_cons_of_mem p hq, hqi⟩

/-! ## Claim C2: release of the cancellation registry -/

/-- Claim C2 — counterexample.  Two runs on key `g`: the first creates
token `0`, the second replaces it with token `1`.  After the second
token is registered, the first run performs its cleanup
(`RequestManager.remove`).  The claim says this cleanup leaves the newer
token registered, but the registry entry is gone: `remove` is not
guarded by ownership. -/
theorem C2_counterexample :
    current "g" (cancelAndCreate "g" (cancelAndCreate "g" {}).2).2 = some 1 ∧
    current "g" (remove "g" (cancelAndCreate "g" (cancelAndCreate "g" {}).2).2) = none := by
  decide

/-- Claim C2 — amended.  `remove(key)` unconditionally clears whatever
token is currently registered for the key — including a token created by
a later run — so the guard the claim describes does not exist.  The
idempotence part of the claim does hold: removing twice equals removing
once, and removal is a no-op when no token is registered for the
key. -/
theorem C2_release_unconditional (s : RMState) (k : String) :
    current k (remove k s) = none ∧
    remove k (remove k s) = remove k s ∧
    (current k s = none → remove k s = s) := by
  refine ⟨lookupKey_eraseKey_self k s.controllers, ?_, ?_⟩
  · simp [remove, eraseKey_eraseKey]
  · intro h
    simp only [remove, eraseKey_of_lookup_none k s.controllers h]

/-- Claim C2 — witness for the amended theorem at a concrete state. -/
theorem C2_release_unconditional_witness :
    current "w" ({ controllers := [("other", 5)], aborted := [], nextId := 6 } : RMState) = none ∧
    remove "w" ({ controllers := [("other", 5)], aborted := [], nextId := 6 } : RMState) =
      ({ controllers := [("other", 5)], aborted := [], nextId := 6 } : RMState) :=
  ⟨by decide,
    (C2_release_unconditional { controllers := [("other", 5)], aborted := [], nextId := 6 } "w").2.2
      (by decide)⟩

/-! ## Claim C4: cancel-and-create -/

/-- Claim C4 — confirmed.  On a well-formed registry state,
`cancelAndCreate(key)` signals the previously registered token cancelled
when one is registered, returns a token that is not signalled and that
no earlier registration mentions, and leaves the returned token as the
current token for the key; well-formedness is preserved. -/
theorem C4_cancelAndCreate_spec (s : RMState) (k : String) (hwf : RMState.wf s = true) :
    (∀ i, lookupKey k s.controllers = some i →
      ((cancelAndCreate k s).2).isAborted i = true) ∧
    ((cancelAndCreate k s).2).isAborted (cancelAndCreate k s).1 = false ∧
    current k (cancelAndCreate k s).2 = some (cancelAndCreate k s).1 ∧
    (∀ p ∈ s.controllers, p.2 ≠ (cancelAndCreate k s).1) ∧
    RMState.wf (cancelAndCreate k s).2 = true := by
  simp only [RMState.wf, Bool.and_eq_true, List.all_eq_true] at hwf
  obtain ⟨hctrl, habort⟩ := hwf
  have hab : ∀ i ∈ s.aborted, i < s.nextId := by
    intro i hi
    simpa using habort i hi
  have hct : ∀ p ∈ s.controllers, p.2 < s.nextId := by
    intro p hp
    simpa using hctrl p hp
  cases hcase : lookupKey k s.controllers with
  | none =>
    refine ⟨?_, ?_, ?_, ?_, ?_⟩
    · intro i hi
      exact absurd hi (by simp)
    · simp only [cancelAndCreate, hcase, RMState.isAborted]
      rw [contains_eq_false_iff]
      intro hmem
      exact absurd (hab _ hmem) (by omega)
    · simp only [cancelAndCreate, hcase, current]
      exact lookupKey_setKey_self k s.nextId s.controllers
    · intro p hp
      simp only [cancelAndCreate, hcase]
      exact Nat.ne_of_lt (hct p hp)
    · simp only [cancelAndCreate, hcase, RMState.wf, Bool.and_eq_true, List.all_eq_true]
      constructor
      · intro p hp
        simp only [setKey] at hp
        rcases List.mem_cons.1 hp with hp | hp
        · subst hp
          simp
        · have := hct p (List.mem_filter.1 hp).1
          simp only [decide_eq_true_eq]
          omega
      · intro i hi
        have := hab i hi
        simp only [decide_eq_true_eq]
        omega
  | some i₀ =>
    have hi₀ : i₀ < s.nextId := by
      obtain ⟨p, hp, hpi⟩ := mem_of_lookupKey_some hcase
      exact hpi ▸ hct p hp
    refine ⟨?_, ?_, ?_, ?_, ?_⟩
    · intro i hi
      have : i = i₀ := (Option.some_injective _ hi).symm
      subst this
      simp only [cancelAndCreate, hcase, RMState.isAborted]
      rw [contains_eq_true_iff]
      exact List.mem_cons_self _ _
    · simp only [cancelAndCreate, hcase, RMState.isAborted]
      rw [contains_eq_false_iff]
      intro hmem
      rcases List.mem_cons.1 hmem with hmem | hmem
      · omega
      · exact absurd (hab _ hmem) (by omega)
    · simp only [cancelAndCreate, hcase, current]
      exact lookupKey_setKey_self k s.nextId s.controllers
    · intro p hp
      simp only [cancelAndCreate, hcase]
      exact Nat.ne_of_lt (hct p hp)
    · simp only [cancelAndCreate, hcase, RMState.wf, Bool.and_eq_true, List.all_eq_true]
      constructor
      · intro p hp
        simp only [setKey] at hp
        rcases List.mem_cons.1 hp with hp | hp
        · subst hp
          simp
        · have := hct p (List.mem_filter.1 hp).1
          simp only [decide_eq_true_eq]
          omega
      · intro i hi
        rcases List.mem_cons.1 hi with hi | hi
        · subst hi
          simp only [decide_eq_true_eq]
          omega
        · have := hab i hi
          simp only [decide_eq_true_eq]
          omega

/-! ## Claim C9: prompt building -/

/-- Claim C9 — confirmed.  Prompt building produces exactly the system
message followed by one synthesized user message whose content
serializes the newest-first window in chronological (oldest-first)
order; assistant turns render as a labeled utterance and user turns
render with sender and participant labeling. -/
theorem C9_prompt_building (messages : List Message) :
    initialConversation messages =
      [ConvMsg.system systemPromptText,
        ConvMsg.user ("Here is the recent conversation from the group chat:\n\n" ++
          String.intercalate "\n"
            (((messages.filter (fun m => truthyStr m.text)).reverse).map renderMessage))] ∧
    (∀ m : Message, m.is_assistant = true →
      renderMessage m = "Assistant: " ++ m.text.getD "") ∧
    (∀ m : Message, m.is_assistant = false →
      renderMessage m =
        orDefaultStr m.recipient "Unknown" ++ " to " ++ participantsLabel m ++ ": " ++
          m.text.getD "") := by
  refine ⟨?_, ?_, ?_⟩
  · simp only [initialConversation, userContext, conversationContext, chronologicalMessages,
      List.filter_reverse]
  · intro m hm
    simp [renderMessage, hm]
  · intro m hm
    simp [renderMessage, hm]

/-- Claim C9 — witness: the rendering clauses at one assistant turn and
one user turn. -/
theorem C9_prompt_building_witness :
    ({ text := some "hello", sender_name := "bot", created_at := "t", message_type := "text",
       is_assistant := true, participants := none, recipient := none } : Message).is_assistant
      = true ∧
    renderMessage
        { text := some "hello", sender_name := "bot", created_at := "t", message_type := "text",
          is_assistant := true, participants := none, recipient := none } =
      "Assistant: " ++ (some "hello").getD "" :=
  ⟨rfl, (C9_prompt_building []).2.1 _ rfl⟩

/-! ## Claim C10: null- and empty-text turns are invisible -/

/-- Claim C10 — confirmed.  A turn of the fetched window whose text is
null or empty is excluded from the serialized model-facing context, yet
it still occupies a slot: the invisible turns and the visible turns
together account for the whole window, whose size is the 10-message
fetch limit capped by the history length. -/
theorem C10_falsy_text_invisible (history : List Message) :
    (∀ m ∈ recentWindow history, truthyStr m.text = false →
      m ∉ chronologicalMessages (recentWindow history)) ∧
    (chronologicalMessages (recentWindow history)).length +
      ((recentWindow history).filter (fun m => !(truthyStr m.text))).length =
      (recentWindow history).length ∧
    (recentWindow history).length = min windowLimit history.length := by
  refine ⟨?_, ?_, ?_⟩
  · intro m _ hfalse hmem
    rw [chronologicalMessages] at hmem
    have h₂ := (List.mem_filter.1 hmem).2
    rw [hfalse] at h₂
    exact Bool.false_ne_true h₂
  · rw [chronologicalMessages, List.filter_reverse, List.length_reverse]
    exact (List.length_eq_length_filter_add _).symm
  · exact List.length_take windowLimit history

/-- Claim C10 — witness: a window holding one audio-only (null-text)
turn and one text turn; the null-text turn is a member of the window but
not of the serialized context. -/
theorem C10_falsy_text_invisible_witness :
    ({ text := none, sender_name := "a", created_at := "t1", message_type := "audio",
       is_assistant := false, participants := none, recipient := none } : Message) ∈
      recentWindow
        [{ text := none, sender_name := "a", created_at := "t1", message_type := "audio",
           is_assistant := false, participants := none, recipient := none },
         { text := some "hi", sender_name := "b", created_at := "t0", message_type := "text",
           is_assistant := false, participants := none, recipient := none }] ∧
    ({ text := none, sender_name := "a", created_at := "t1", message_type := "audio",
       is_assistant := false, participants := none, recipient := none } : Message) ∉
      chronologicalMessages
        (recentWindow
          [{ text := none, sender_name := "a", created_at := "t1", message_type := "audio",
             is_assistant := false, participants := none, recipient := none },
           { text := some "hi", sender_name := "b", created_at := "t0", message_type := "text",
             is_assistant := false, participants := none, recipient := none }]) :=
  ⟨by decide,
    (C10_falsy_text_invisible _).1 _ (by decide) (by decide)⟩

/-! ## Claim C5: sequential tool dispatch with local failure recovery -/

/-- Claim C5 — confirmed.  A batch of tool invocations is dispatched
sequentially in the order received: the appended tool-result turns are
exactly one per function-shaped invocation, in order, keyed by call
identifier; non-function shapes contribute a logged warning and no turn;
a thrown executor failure becomes an error-shaped result (so later
invocations are still dispatched); and under the loop guard the next
completion call receives the conversation extended with the whole
batch. -/
theorem C5_sequential_dispatch (exec : String → String → ExecOutcome) (calls : List ToolCall) :
    (runToolCalls exec calls).msgs =
      (functionCalls calls).map (fun c => ConvMsg.tool c.1 (toolCallContent exec c.2.1 c.2.2)) ∧
    (runToolCalls exec calls).warnings =
      (nonFunctionTypes calls).map (fun ty => "Skipping non-function tool call: " ++ ty) ∧
    (runToolCalls exec calls).raws =
      (functionCalls calls).map (fun c => (c.1, exec c.2.1 c.2.2)) ∧
    (∀ name args e, exec name args = ExecOutcome.threw e →
      toolCallContent exec name args = toolErrorContent e) ∧
    (∀ completions msg conv callIdx r c,
      truthyCalls msg.tool_calls = true → completions callIdx = Except.ok c →
      genLoop completions exec (r + 1) msg conv callIdx =
        genLoop completions exec r c
          ((conv ++ [ConvMsg.assistant msg.content msg.tool_calls]) ++
            (runToolCalls exec (msg.tool_calls.getD [])).msgs)
          (callIdx + 1)) := by
  refine ⟨?_, ?_, ?_, ?_, ?_⟩
  · induction calls with
    | nil => rfl
    | cons c rest ih =>
      cases c with
      | function id name args => simp [runToolCalls, functionCalls, ih]
      | other ty i => simp [runToolCalls, functionCalls, ih]
  · induction calls with
    | nil => rfl
    | cons c rest ih =>
      cases c with
      | function id name args => simp [runToolCalls, nonFunctionTypes, ih]
      | other ty i => simp [runToolCalls, nonFunctionTypes, ih]
  · induction calls with
    | nil => rfl
    | cons c rest ih =>
      cases c with
      | function id name args => simp [runToolCalls, functionCalls, ih]
      | other ty i => simp [runToolCalls, functionCalls, ih]
  · intro name args e h
    simp [toolCallContent, h]
  · intro completions msg conv callIdx r c htool hcomp
    simp [genLoop, htool, hcomp]

/-- Claim C5 — witness: a batch with a failing dispatch in the middle
still yields one result turn per function-shaped invocation, the failing
one error-shaped, and the skipped shape only a warning. -/
theorem C5_sequential_dispatch_witness :
    ((fun n _ => if n = "boom" then ExecOutcome.threw "kaput" else ExecOutcome.ok "fine") :
        String → String → ExecOutcome) "boom" "a" = ExecOutcome.threw "kaput" ∧
    toolCallContent
        (fun n _ => if n = "boom" then ExecOutcome.threw "kaput" else ExecOutcome.ok "fine")
        "boom" "a" = toolErrorContent "kaput" :=
  ⟨by decide,
    (C5_sequential_dispatch
        (fun n _ => if n = "boom" then ExecOutcome.threw "kaput" else ExecOutcome.ok "fine")
        []).2.2.2.1 "boom" "a" "kaput" (by decide)⟩

/-! ## Claim C7: tool-result truncation -/

/-- Claim C7 — confirmed.  A tool result longer than 2000 characters is
reinserted into the model-facing conversation as its first 2000
characters followed by the truncation marker, while the batch record of
the dispatch (the side-effect view) keeps the full untruncated result; a
result within the cap is inserted unchanged. -/
theorem C7_truncation (r : String) (exec : String → String → ExecOutcome)
    (id name args : String) :
    (r.length > truncLimit → truncateResult r = r.take truncLimit ++ truncationMarker) ∧
    (r.length ≤ truncLimit → truncateResult r = r) ∧
    (exec name args = ExecOutcome.ok r →
      runToolCalls exec [ToolCall.function id name args] =
        { msgs := [ConvMsg.tool id (truncateResult r)],
          warnings := [],
          raws := [(id, ExecOutcome.ok r)] }) := by
  refine ⟨?_, ?_, ?_⟩
  · intro h
    simp [truncateResult, h]
  · intro h
    rw [truncateResult, if_neg (by omega)]
  · intro h
    simp [runToolCalls, toolCallContent, h]

/-- Claim C7 — witness: a 2001-character result is truncated in the
context; also the unchanged case at a short result. -/
theorem C7_truncation_witness :
    (String.mk (List.replicate 2001 'x')).length > truncLimit ∧
    truncateResult (String.mk (List.replicate 2001 'x')) =
      (String.mk (List.replicate 2001 'x')).take truncLimit ++ truncationMarker ∧
    ("ok" : String).length ≤ truncLimit ∧
    truncateResult "ok" = "ok" := by
  have hlen : (String.mk (List.replicate 2001 'x')).length = 2001 := by
    show (List.replicate 2001 'x').length = 2001
    rw [List.length_replicate]
  have hgt : (String.mk (List.replicate 2001 'x')).length > truncLimit := by
    rw [hlen]
    decide
  exact ⟨hgt,
    (C7_truncation (String.mk (List.replicate 2001 'x')) (fun _ _ => ExecOutcome.ok "") "" "" "").1
      hgt,
    by decide,
    (C7_truncation "ok" (fun _ _ => ExecOutcome.ok "") "" "" "").2.1 (by decide)⟩

/-! ## Claim C8: the no-response failure -/

/-- Claim C8 — confirmed.  When the completion examined after the loop
carries neither truthy text nor a tool-call array, the run fails with
the no-response error; the result is a constant independent of the
completion oracle, so no retry is issued. -/
theorem C8_no_response (completions : Nat → Except CallErr Completion)
    (exec : String → String → ExecOutcome) (msg : Completion) (conv : List ConvMsg)
    (callIdx remaining : Nat) :
    (truthyCalls msg.tool_calls = false → truthyStr msg.content = false →
      genLoop completions exec remaining msg conv callIdx = (GenResult.noResponse, conv)) ∧
    (∀ messages c, completions 0 = Except.ok c → truthyCalls c.tool_calls = false →
      truthyStr c.content = false →
      generateChatResponse messages completions exec true = GenResult.noResponse) := by
  have hloop : ∀ (msg₂ : Completion) (conv₂ : List ConvMsg) (callIdx₂ remaining₂ : Nat),
      truthyCalls msg₂.tool_calls = false → truthyStr msg₂.content = false →
      genLoop completions exec remaining₂ msg₂ conv₂ callIdx₂ = (GenResult.noResponse, conv₂) := by
    intro msg₂ conv₂ callIdx₂ remaining₂ htool hcontent
    have hfin : finalize msg₂ = GenResult.noResponse := by
      cases hc : msg₂.content with
      | none => simp [finalize, hc]
      | some t =>
        rw [hc] at hcontent
        have ht : (t == "") = true := by
          simpa [truthyStr] using hcontent
        simp [finalize, hc, ht]
    cases remaining₂ with
    | zero => simp [genLoop, htool, hfin]
    | succ r => simp [genLoop, htool, hfin]
  refine ⟨hloop msg conv callIdx remaining, ?_⟩
  intro messages c hcomp htool hcontent
  rw [generateChatResponse]
  simp only [Bool.not_true, Bool.false_eq_true, if_false, hcomp]
  rw [hloop c (initialConversation messages) 1 maxToolCalls htool hcontent]

/-- Claim C8 — witness: a first completion with no content and no
tool-call array makes the run fail with the no-response error. -/
theorem C8_no_response_witness :
    ((fun _ => Except.ok { content := none, tool_calls := none }) :
        Nat → Except CallErr Completion) 0 =
      Except.ok ({ content := none, tool_calls := none } : Completion) ∧
    generateChatResponse []
      ((fun _ => Except.ok { content := none, tool_calls := none }) :
        Nat → Except CallErr Completion)
      (fun _ _ => ExecOutcome.ok "") true = GenResult.noResponse :=
  ⟨rfl,
    (C8_no_response
        ((fun _ => Except.ok { content := none, tool_calls := none }) :
          Nat → Except CallErr Completion)
        (fun _ _ => ExecOutcome.ok "") { content := none, tool_calls := none } [] 0 0).2
      [] _ rfl (by decide) (by decide)⟩

/-! ## Claim C1: reaching the iteration bound -/

/-- When every completion keeps requesting tools, the loop runs down its
budget and finalizes the completion delivered by the last call. -/
theorem genLoop_exhaust (cs : Nat → Completion) (exec : String → String → ExecOutcome)
    (htool : ∀ n, truthyCalls (cs n).tool_calls = true) :
    ∀ (remaining : Nat) (msg : Completion) (conv : List ConvMsg) (callIdx : Nat),
      truthyCalls msg.tool_calls = true →
      (genLoop (fun n => Except.ok (cs n)) exec remaining msg conv callIdx).1 =
        finalize (if remaining = 0 then msg else cs (callIdx + remaining - 1)) := by
  intro remaining
  induction remaining with
  | zero =>
    intro msg conv callIdx h
    simp [genLoop, h]
  | succ r ih =>
    intro msg conv callIdx h
    rw [genLoop, if_pos h]
    rw [ih (cs callIdx) _ (callIdx + 1) (htool callIdx)]
    rcases r with _ | j
    · simp
    · congr 1
      rw [if_neg (by omega), if_neg (by omega)]
      congr 1
      omega

/-- Claim C1 — counterexample.  Every completion requests a tool call
and also carries the text `partial reply`; after the bound is reached
the run returns that partial text as an ordinary successful reply, not a
surfaced exhaustion failure. -/
theorem C1_counterexample :
    generateChatResponse []
      (fun _ => Except.ok
        { content := some "partial reply",
          tool_calls := some [ToolCall.function "c1" "send_message" "x"] })
      (fun _ _ => ExecOutcome.ok "sent") true = GenResult.ok "partial reply" := by
  decide

/-- Claim C1 — amended.  When the completion service still requests
tools at every call, the loop stops after `maxToolCalls` iterations and
the run finalizes the last completion exactly as if the model had
finished: any (nonempty) partial text in that completion is returned as
a successful final reply (trimmed), and only when that completion has no
truthy text does the run fail — with the generic no-response error, not
a distinct exhaustion state. -/
theorem C1_exhaustion_returns_text (messages : List Message) (cs : Nat → Completion)
    (exec : String → String → ExecOutcome)
    (htool : ∀ n, truthyCalls (cs n).tool_calls = true) :
    generateChatResponse messages (fun n => Except.ok (cs n)) exec true =
      finalize (cs maxToolCalls) ∧
    (∀ t, (cs maxToolCalls).content = some t → ¬(t = "") →
      generateChatResponse messages (fun n => Except.ok (cs n)) exec true =
        GenResult.ok (jsTrim t)) := by
  have hmain : generateChatResponse messages (fun n => Except.ok (cs n)) exec true =
      finalize (cs maxToolCalls) := by
    rw [generateChatResponse]
    simp only [Bool.not_true, Bool.false_eq_true, if_false]
    rw [genLoop_exhaust cs exec htool maxToolCalls (cs 0) (initialConversation messages) 1
      (htool 0)]
    norm_num [maxToolCalls]
  refine ⟨hmain, ?_⟩
  intro t hc ht
  rw [hmain, finalize, hc]
  simp [ht]

/-- Claim C1 — witness for the amended theorem: with the text
`  padded  ` on the last completion, the exhausted run succeeds with the
trimmed text. -/
theorem C1_exhaustion_returns_text_witness :
    truthyCalls
        ({ content := some "  padded  ",
           tool_calls := some [ToolCall.function "c9" "send_message" "y"] } : Completion).tool_calls
      = true ∧
    generateChatResponse []
      (fun _ => Except.ok
        { content := some "  padded  ",
          tool_calls := some [ToolCall.function "c9" "send_message" "y"] })
      (fun _ _ => ExecOutcome.ok "sent") true =
      finalize
        { content := some "  padded  ",
          tool_calls := some [ToolCall.function "c9" "send_message" "y"] } :=
  ⟨rfl,
    (C1_exhaustion_returns_text []
      (fun _ =>
        { content := some "  padded  ",
          tool_calls := some [ToolCall.function "c9" "send_message" "y"] })
      (fun _ _ => ExecOutcome.ok "sent") (fun _ => rfl)).1⟩

/-! ## Claim C6: tool dispatch and local error conversion -/

/-- Claim C6 — confirmed.  `executeTool` throws the unknown-tool error
exactly for names outside the registered table; every registered
executor returns a result string for all oracle outcomes, and the
specific internal failures — a non-HTTPS media URL, an over-256-character
media URL, the missing histories API key, a failing delivery call — are
converted into the structured error result instead of propagating. -/
theorem C6_executeTool_spec (env : ToolEnv) (name : String) (args : ToolArgs)
    (ctx : ToolContext) :
    (name = "send_message" ∨ name = "get_user_histories" ∨ name = "send_audio_message" →
      ∃ s, executeTool env name args ctx = Except.ok s) ∧
    (name ≠ "send_message" → name ≠ "get_user_histories" → name ≠ "send_audio_message" →
      executeTool env name args ctx = Except.error ("Unknown tool: " ++ name)) ∧
    (jsStartsWith args.media_url "https://" = false →
      executeTool env "send_audio_message" args ctx =
        Except.ok (toolFailure "media_url must start with https://")) ∧
    (jsStartsWith args.media_url "https://" = true → args.media_url.length > 256 →
      executeTool env "send_audio_message" args ctx =
        Except.ok (toolFailure "media_url must be less than 256 characters")) ∧
    (env.homieKeySet = false →
      executeTool env "get_user_histories" args ctx =
        Except.ok (toolFailure "HOMIE_API_KEY environment variable is not set")) ∧
    (∀ e, env.sendMessage ctx.groupId args.text ctx.senderName = Except.error e →
      executeTool env "send_message" args ctx =
        Except.ok (toolFailure (errMsgOr e "Failed to send message"))) := by
  refine ⟨?_, ?_, ?_, ?_, ?_, ?_⟩
  · rintro (h | h | h) <;> subst h <;> simp [executeTool]
  · intro h₁ h₂ h₃
    simp [executeTool, h₁, h₂, h₃]
  · intro h
    simp [executeTool, sendAudioExec, h]
  · intro h₁ h₂
    simp [executeTool, sendAudioExec, h₁, h₂]
  · intro h
    simp [executeTool, getUserHistoriesExec, h]
  · intro e h
    simp [executeTool, sendMessageExec, h]

/-- Claim C6 — witness: an unregistered name throws; an insecure media
URL for the audio tool yields the structured error result. -/
theorem C6_executeTool_spec_witness :
    executeTool
        { homieKeySet := false, sendMessage := fun _ _ _ => Except.ok (),
          sendAudio := fun _ _ _ _ => Except.ok (),
          getHistories := fun _ _ _ => Except.error "down" }
        "web_search" {} { groupId := "g", senderName := "s" } =
      Except.error ("Unknown tool: " ++ "web_search") ∧
    (jsStartsWith ({ media_url := "http://host/a.mp3" } : ToolArgs).media_url "https://"
      = false) ∧
    executeTool
        { homieKeySet := false, sendMessage := fun _ _ _ => Except.ok (),
          sendAudio := fun _ _ _ _ => Except.ok (),
          getHistories := fun _ _ _ => Except.error "down" }
        "send_audio_message" { media_url := "http://host/a.mp3" }
        { groupId := "g", senderName := "s" } =
      Except.ok (toolFailure "media_url must start with https://") :=
  ⟨(C6_executeTool_spec _ "web_search" {} _).2.1 (by decide) (by decide) (by decide),
    by decide,
    (C6_executeTool_spec _ "send_audio_message" { media_url := "http://host/a.mp3" } _).2.2.1
      (by decide)⟩

/-! ## Claim C3: a cancelled run never delivers -/

/-- Claim C3 — confirmed.  Observing cancellation at any of the three
pipeline check points — before fetching history, before generating, or
after generation but before delivery — makes the run finish without
calling the delivery channel for its final text, as does the cancelled
outcome of the generation itself; and an abort surfaced by the
completion call yields exactly that cancelled outcome. -/
theorem C3_cancelled_never_delivers (env : PipelineEnv) :
    (env.abortedBeforeFetch = true → (processMessageAsync env).delivered = none) ∧
    (env.abortedBeforeGenerate = true → (processMessageAsync env).delivered = none) ∧
    (env.abortedAfterGenerate = true → (processMessageAsync env).delivered = none) ∧
    (∀ recent, env.fetch = Except.ok recent →
      generateChatResponse (recent.map routeMessage) env.completions env.exec env.openaiKeySet =
        GenResult.cancelled →
      (processMessageAsync env).delivered = none) ∧
    (env.completions 0 = Except.error CallErr.aborted →
      ∀ messages, generateChatResponse messages env.completions env.exec true =
        GenResult.cancelled) := by
  refine ⟨?_, ?_, ?_, ?_, ?_⟩
  · intro h
    simp [processMessageAsync, h]
  · intro h
    by_cases h₁ : env.abortedBeforeFetch
    · simp [processMessageAsync, h₁]
    · cases hf : env.fetch with
      | error e => simp [processMessageAsync, h₁, hf]
      | ok recent =>
        by_cases hemp : recent.isEmpty <;> simp [processMessageAsync, h₁, hf, hemp, h]
  · intro h
    by_cases h₁ : env.abortedBeforeFetch
    · simp [processMessageAsync, h₁]
    · cases hf : env.fetch with
      | error e => simp [processMessageAsync, h₁, hf]
      | ok recent =>
        by_cases hemp : recent.isEmpty
        · simp [processMessageAsync, h₁, hf, hemp]
        · by_cases h₂ : env.abortedBeforeGenerate
          · simp [processMessageAsync, h₁, hf, hemp, h₂]
          · cases hg : generateChatResponse (recent.map routeMessage) env.completions env.exec
                env.openaiKeySet <;>
              simp [processMessageAsync, h₁, hf, hemp, h₂, hg, h]
  · intro recent hf hg
    by_cases h₁ : env.abortedBeforeFetch
    · simp [processMessageAsync, h₁]
    · by_cases hemp : recent.isEmpty
      · simp [processMessageAsync, h₁, hf, hemp]
      · by_cases h₂ : env.abortedBeforeGenerate <;>
          simp [processMessageAsync, h₁, hf, hemp, h₂, hg]
  · intro h messages
    simp [generateChatResponse, h]

/-- Claim C3 — witness: a run whose signal is already aborted before the
history fetch delivers nothing. -/
theorem C3_cancelled_never_delivers_witness :
    ({ groupId := "g", senderName := "s", abortedBeforeFetch := true,
        fetch := Except.ok [], abortedBeforeGenerate := false,
        completions := fun _ => Except.error CallErr.aborted,
        exec := fun _ _ => ExecOutcome.ok "", openaiKeySet := true,
        abortedAfterGenerate := false,
        deliver := fun _ _ _ => Except.ok () } : PipelineEnv).abortedBeforeFetch = true ∧
    (processMessageAsync
      { groupId := "g", senderName := "s", abortedBeforeFetch := true,
        fetch := Except.ok [], abortedBeforeGenerate := false,
        completions := fun _ => Except.error CallErr.aborted,
        exec := fun _ _ => ExecOutcome.ok "", openaiKeySet := true,
        abortedAfterGenerate := false,
        deliver := fun _ _ _ => Except.ok () }).delivered = none :=
  ⟨rfl,
    (C3_cancelled_never_delivers
      { groupId := "g", senderName := "s", abortedBeforeFetch := true,
        fetch := Except.ok [], abortedBeforeGenerate := false,
        completions := fun _ => Except.error CallErr.aborted,
        exec := fun _ _ => ExecOutcome.ok "", openaiKeySet := true,
        abortedAfterGenerate := false,
        deliver := fun _ _ _ => Except.ok () }).1 rfl⟩

/-- Claim C4 — witness at a concrete state with a registered token:
token `0` is cancelled, the returned token `1` is fresh, unsignalled and
current. -/
theorem C4_cancelAndCreate_spec_witness :
    RMState.wf ({ controllers := [("g", 0)], aborted := [], nextId := 1 } : RMState) = true ∧
    ((cancelAndCreate "g" { controllers := [("g", 0)], aborted := [], nextId := 1 }).2).isAborted 0 = true ∧
    current "g" (cancelAndCreate "g" { controllers := [("g", 0)], aborted := [], nextId := 1 }).2 =
      some (cancelAndCreate "g" { controllers := [("g", 0)], aborted := [], nextId := 1 }).1 :=
  ⟨by decide,
    (C4_cancelAndCreate_spec { controllers := [("g", 0)], aborted := [], nextId := 1 } "g"
      (by decide)).1 0 (by decide),
    (C4_cancelAndCreate_spec { controllers := [("g", 0)], aborted := [], nextId := 1 } "g"
      (by decide)).2.2.1⟩

end Texts
